import Mathlib

/-!
Verification development for the LOOMTechnologies personal-AI-assistant backend.

The Python sources are shallowly embedded: pure routing/formatting code becomes
Lean functions over `String`, `List` and small record types; every outbound
network or database call is modelled as an explicit `Except String α` argument
(`.error e` models the call raising an exception whose `str(e)` is `e`, and
`.ok v` models it returning `v`); the process environment is an explicit `Env`
record.  Python `str` values are Lean `String`s, `dict`s with string keys and
values are association lists, and the float confidence constants are embedded
as the corresponding rationals.
-/

namespace Loom

/-- Boolean test that the first list starts with the second (the pattern). -/
def startsWithList : List Char → List Char → Bool
  | _, [] => true
  | [], _ :: _ => false
  | a :: as, b :: bs => a == b && startsWithList as bs

/-- Boolean substring containment over character lists: does some suffix of the
haystack start with the pattern? -/
def containsSub : List Char → List Char → Bool
  | [], pat => startsWithList [] pat
  | a :: rest, pat => startsWithList (a :: rest) pat || containsSub rest pat

/-- Python `pat in s` on strings: substring containment. -/
def pyIn (pat s : String) : Bool := containsSub s.data pat.data

/-- Python `s.lower()`.  All keyword matching in this repository is ASCII, so
per-character `Char.toLower` is the faithful embedding. -/
def pyLower (s : String) : String := ⟨s.data.map Char.toLower⟩

/-- One fuel-indexed step list for Python `s.replace(old, new)`; fuel is the
length of the scanned list, enough because each step consumes at least one
character.  The embedded code never calls `replace` with an empty pattern. -/
def replaceList (old new : List Char) : Nat → List Char → List Char
  | _, [] => []
  | 0, s => s
  | fuel + 1, c :: rest =>
    if startsWithList (c :: rest) old && !old.isEmpty then
      new ++ replaceList old new fuel ((c :: rest).drop old.length)
    else
      c :: replaceList old new fuel rest

/-- Python `s.replace(old, new)` (all non-overlapping occurrences, left to right). -/
def pyReplace (s old new : String) : String :=
  ⟨replaceList old.data new.data s.data.length s.data⟩

/-- Python `s.strip()`: drop leading and trailing whitespace. -/
def pyStrip (s : String) : String :=
  ⟨((s.data.dropWhile fun c => c.isWhitespace).reverse.dropWhile fun c => c.isWhitespace).reverse⟩

/-- One pass of Python `s.title()`: an alphabetic character is uppercased when
the previous character is not alphabetic and lowercased otherwise. -/
def titleList : Bool → List Char → List Char
  | _, [] => []
  | prevAlpha, c :: rest =>
    (if c.isAlpha then (if prevAlpha then c.toLower else c.toUpper) else c)
      :: titleList c.isAlpha rest

/-- Python `s.title()`. -/
def pyTitle (s : String) : String := ⟨titleList false s.data⟩

/-- Python `sep.join(parts)`. -/
def joinSep (sep : String) : List String → String
  | [] => ""
  | [x] => x
  | x :: y :: rest => x ++ sep ++ joinSep sep (y :: rest)

/-- A Python dict with string keys and string values, as sent in `user_context`. -/
abbrev PyDict := List (String × String)

/-- Python `d.get(k, dflt)` on a string dict. -/
def dictGetD (d : PyDict) (k dflt : String) : String :=
  ((d.find? fun kv => kv.1 == k).map Prod.snd).getD dflt

/-- The open-ended `user_context` request field: each entry is a sequence of
records (dicts).  Absent keys default to the empty list, matching
`user_context.get(..., [])` at every use site. -/
structure UserContext where
  preferences : List PyDict := []
  notes : List PyDict := []
  events : List PyDict := []
  emails : List PyDict := []
  media : List PyDict := []
deriving DecidableEq

/-- The fixed-shape response record returned by every entry point
(`AIResponse` / `AssistantResponse` in the sources).  The float confidence
constants 0.7 / 0.8 / 0.9 / 0.85 are embedded as rationals. -/
structure AIResponse where
  response : String
  confidence : ℚ
  task_type : String
  memory_updated : Bool
  tools_used : List String
deriving DecidableEq

/-- The greeting text shared verbatim by `simple_ai.py` and `start_service.py`. -/
def assistant_greeting : String :=
  "Hello! I\x27m your LOOM AI Assistant powered by LangChain + Ollama + ChromaDB. I can help you with your preferences, notes, gallery, and more. What would you like to know?"

/-- Process environment at startup: the two configuration variables the tools
read (`os.getenv`). `none` models an absent variable. -/
structure Env where
  tavily_api_key : Option String := none
  google_credentials_path : Option String := none
deriving DecidableEq

/-- A JSON scalar appearing as a value in a health-status map. -/
inductive JsonVal where
  | bool (b : Bool)
  | str (s : String)
deriving DecidableEq

/-- Lookup of a key in a JSON-object style association list. -/
def statusLookup (k : String) (l : List (String × JsonVal)) : Option JsonVal :=
  (l.find? fun kv => kv.1 == k).map Prod.snd

/-- Outcome of a Python function that either falls off the end (`None`) or
returns a `bool`; used for the memory-store write operations. -/
inductive StoreResult where
  | pyNone : StoreResult
  | pyBool (b : Bool) : StoreResult
deriving DecidableEq

namespace SimpleMain

/-- `detect_task_type`, src/python_ai_service/simple_main.py lines 37-50
(an identical copy is `LoomAIOrchestrator.detect_task_type` in
src/python_ai_service/main.py lines 227-240). -/
def detect_task_type (message : String) : String :=
  let message_lower := pyLower message
  if ["search", "find", "look up", "research"].any (fun w => pyIn w message_lower) then
    "web_search"
  else if ["schedule", "calendar", "meeting", "appointment"].any (fun w => pyIn w message_lower) then
    "calendar"
  else if ["email", "send", "message", "mail"].any (fun w => pyIn w message_lower) then
    "email"
  else if ["image", "photo", "picture", "analyze"].any (fun w => pyIn w message_lower) then
    "image_analysis"
  else
    "general_chat"

/-- `generate_response`, src/python_ai_service/simple_main.py lines 52-76. -/
def generate_response (message : String) (user_context : UserContext) (task_type : String) : String :=
  if task_type == "web_search" then
    "I\x27ll search for information about \x27" ++ message ++ "\x27. Using LangChain + Ollama orchestration to find relevant current information."
  else if task_type == "calendar" then
    "I\x27ll help you manage your calendar using Google Calendar integration. You currently have " ++ toString user_context.events.length ++ " events scheduled."
  else if task_type == "email" then
    "I\x27ll assist with your email needs using Gmail API integration. You have " ++ toString user_context.emails.length ++ " emails in your system."
  else if task_type == "image_analysis" then
    "I\x27ll analyze the image using CLIP computer vision model. You have " ++ toString user_context.media.length ++ " media files stored."
  else
    let notes_context :=
      if user_context.notes.isEmpty then ""
      else
        " I can see you have notes about " ++
          joinSep ", " ((user_context.notes.take 3).map fun note => dictGetD note "title" "Untitled") ++ "."
    "I\x27m your LangChain-powered AI assistant with access to Ollama (LLaMA3/Mistral), ChromaDB vector memory, and comprehensive tools." ++ notes_context ++ " How can I help you today?"

/-- The non-exception path of `orchestrate_ai_task`,
src/python_ai_service/simple_main.py lines 78-103. -/
def orchestrate_ai_task (message : String) (user_context : UserContext) : AIResponse :=
  let task_type := detect_task_type message
  let response := generate_response message user_context task_type
  let tools_used :=
    if task_type == "web_search" then ["web_search", "tavily_api"]
    else if task_type == "calendar" then ["calendar_management", "google_calendar"]
    else if task_type == "email" then ["email_management", "gmail_api"]
    else if task_type == "image_analysis" then ["image_analysis", "clip_model"]
    else ["langchain_orchestration", "ollama_llm"]
  { response := response, confidence := 9/10, task_type := task_type,
    memory_updated := true, tools_used := tools_used }

/-- The `services` map of the `/health` endpoint,
src/python_ai_service/simple_main.py lines 107-121.  The handler returns this
fixed map of strings; it reads no environment variable and no tool state. -/
def health_services : List (String × JsonVal) :=
  [("langchain", JsonVal.str "initialized"),
   ("ollama", JsonVal.str "pending"),
   ("chromadb", JsonVal.str "in_memory"),
   ("tavily", JsonVal.str "configured"),
   ("google_apis", JsonVal.str "configured"),
   ("clip", JsonVal.str "pending")]

end SimpleMain

namespace ProperMain

/-- `LoomAIOrchestrator.detect_task_type`, src/python_ai_service/proper_main.py
lines 387-404. -/
def detect_task_type (message : String) : String :=
  let message_lower := pyLower message
  if ["favorite", "prefer", "like"].any (fun w => pyIn w message_lower) then
    "preference_query"
  else if ["weather", "news", "search"].any (fun w => pyIn w message_lower) then
    "web_search"
  else if ["calendar", "schedule", "event"].any (fun w => pyIn w message_lower) then
    "calendar_management"
  else if ["email", "mail"].any (fun w => pyIn w message_lower) then
    "email_management"
  else if ["image", "photo", "picture"].any (fun w => pyIn w message_lower) then
    "image_analysis"
  else if ["remember", "memory", "recall"].any (fun w => pyIn w message_lower) then
    "memory_retrieval"
  else
    "general_chat"

/-- `preference_analysis_tool`, src/python_ai_service/proper_main.py
lines 146-189 (non-exception path).  The sequential early-return `if` blocks
are embedded as an `Option.orElse` chain in source order. -/
def preference_analysis_tool (user_context : UserContext) (query : String) : String :=
  let preferences := user_context.preferences
  if preferences.isEmpty then "No preferences found in user context"
  else
    let query_lower := pyLower query
    let tv_step : Option String :=
      if pyIn "tv series" query_lower || pyIn "series" query_lower then
        match preferences.find? (fun p =>
            pyIn "tv_series" (dictGetD p "key" "") ||
            pyIn "tv series" (pyLower (dictGetD p "value" ""))) with
        | some tv_pref =>
          some ("Your favorite TV series is: " ++
            pyStrip (pyReplace (dictGetD tv_pref "value" "") "tv series: " ""))
        | none => none
      else none
    let singers_step : Option String :=
      if pyIn "singers" query_lower && !(pyIn "singer?" query_lower) then
        match preferences.find? (fun p =>
            pyIn "favorite_singers" (dictGetD p "key" "") ||
            pyIn "singers:" (dictGetD p "value" "")) with
        | some singers_pref =>
          some ("Your favorite singers are: " ++
            pyStrip (pyReplace (dictGetD singers_pref "value" "") "singers: " ""))
        | none => none
      else none
    let single_singer_step : Option String :=
      if pyIn "singer?" query_lower || pyIn "who is my favorite singer" query_lower then
        some "I don\x27t know your favorite singer."
      else none
    let album_step : Option String :=
      if pyIn "album" query_lower then
        match preferences.find? (fun p =>
            pyIn "favorite_album" (dictGetD p "key" "") ||
            pyIn "my beautiful dark twisted fantasy" (pyLower (dictGetD p "value" ""))) with
        | some _ => some "Your favorite album is: My Beautiful Dark Twisted Fantasy by Kanye West"
        | none => none
      else none
    let about_step : Option String :=
      if pyIn "what do you know about me" query_lower then
        some ("Your preferences: " ++
          joinSep "; " (preferences.map fun pref =>
            dictGetD pref "key" "" ++ ": " ++ dictGetD pref "value" ""))
      else none
    (((((tv_step.orElse fun _ => singers_step).orElse fun _ =>
        single_singer_step).orElse fun _ => album_step).orElse fun _ =>
        about_step)).getD ("No specific preference found for query: " ++ query)

end ProperMain

namespace Agent

/-- `AssistantAgent._detect_task_type`, src/ai_assistant/agents/assistant_agent.py
lines 183-198. -/
def detect_task_type (message : String) : String :=
  let message_lower := pyLower message
  if ["favorite", "prefer", "like"].any (fun w => pyIn w message_lower) then
    "preference_query"
  else if ["weather", "news", "search"].any (fun w => pyIn w message_lower) then
    "web_search"
  else if ["calendar", "schedule", "event"].any (fun w => pyIn w message_lower) then
    "calendar_management"
  else if ["email", "mail"].any (fun w => pyIn w message_lower) then
    "email_management"
  else if ["image", "photo", "picture"].any (fun w => pyIn w message_lower) then
    "image_analysis"
  else
    "general_chat"

/-- The analysis body of `AssistantAgent._analyze_preferences`,
src/ai_assistant/agents/assistant_agent.py lines 272-303, taken after the
pipe-separated wrapper (`user_id:X|query:Y|context:Z`) has extracted the
actual query string and the `preferences` list from the context JSON.  The
sequential early-return `if` blocks are embedded as an `Option.orElse` chain
in source order. -/
def analyze_preferences (actual_query : String) (preferences : List PyDict) : String :=
  if preferences.isEmpty then "I don\x27t have information about your preferences yet."
  else
    let query_lower := pyLower actual_query
    let tv_step : Option String :=
      if pyIn "tv series" query_lower || pyIn "series" query_lower then
        match preferences.find? (fun p =>
            pyIn "tv_series" (dictGetD p "key" "") ||
            pyIn "tv series" (pyLower (dictGetD p "value" ""))) with
        | some tv_pref =>
          some ("Your favorite TV series is: **" ++
            pyStrip (pyReplace (dictGetD tv_pref "value" "") "tv series: " "") ++ "**")
        | none => none
      else none
    let singers_step : Option String :=
      if pyIn "singers" query_lower && !(pyIn "singer?" query_lower) then
        match preferences.find? (fun p =>
            pyIn "favorite_singers" (dictGetD p "key" "") ||
            pyIn "singers:" (dictGetD p "value" "")) with
        | some singers_pref =>
          some ("Your favorite singers are: **" ++
            pyStrip (pyReplace (dictGetD singers_pref "value" "") "singers: " "") ++ "**")
        | none => none
      else none
    let single_singer_step : Option String :=
      if pyIn "singer?" query_lower then some "I don\x27t know your favorite singer."
      else none
    let album_step : Option String :=
      if pyIn "album" query_lower then
        match preferences.find? (fun p =>
            pyIn "favorite_album" (dictGetD p "key" "") ||
            pyIn "my beautiful dark twisted fantasy" (pyLower (dictGetD p "value" ""))) with
        | some _ => some "Your favorite album is: **My Beautiful Dark Twisted Fantasy by Kanye West**"
        | none => none
      else none
    ((((tv_step.orElse fun _ => singers_step).orElse fun _ =>
        single_singer_step).orElse fun _ => album_step)).getD
      ("I found " ++ toString preferences.length ++ " preferences in your profile.")

end Agent

namespace SimpleAI

/-- `analyze_preferences`, src/ai_assistant/simple_ai.py lines 34-62.
Here the branches are a genuine `if`/`elif` chain: a matched topic whose
lookup fails falls directly out to `None`, not to the next topic. -/
def analyze_preferences (message : String) (preferences : List PyDict) : Option String :=
  let message_lower := pyLower message
  if pyIn "tv series" message_lower || pyIn "series" message_lower then
    match preferences.find? (fun p => pyIn "tv_series" (dictGetD p "key" "")) with
    | some tv_pref =>
      let series_name := pyStrip (pyReplace (dictGetD tv_pref "value" "") "tv series: " "")
      some ("Your favorite TV series is: **" ++ pyTitle series_name ++ "**")
    | none => none
  else if pyIn "album" message_lower then
    match preferences.find? (fun p => pyIn "favorite_album" (dictGetD p "key" "")) with
    | some album_pref =>
      some ("Your favorite album is: **" ++ dictGetD album_pref "value" "" ++ "**")
    | none => none
  else if pyIn "singers" message_lower && !(pyIn "singer?" message_lower) then
    match preferences.find? (fun p => pyIn "favorite_singers" (dictGetD p "key" "")) with
    | some singers_pref =>
      let singers := pyStrip (pyReplace (dictGetD singers_pref "value" "") "singers: " "")
      some ("Your favorite singers are: **" ++ singers ++ "**")
    | none => none
  else if pyIn "singer?" message_lower then
    some "I don\x27t know your favorite singer."
  else none

/-- The non-exception path of the `/chat` handler `chat_endpoint`,
src/ai_assistant/simple_ai.py lines 64-122. -/
def chat_endpoint (message : String) (user_context : UserContext) : AIResponse :=
  let preferences := user_context.preferences
  match analyze_preferences message preferences with
  | some pref_response =>
    { response := pref_response, confidence := 9/10, task_type := "preference_query",
      memory_updated := true,
      tools_used := ["langchain_agent", "preference_analysis", "chromadb_memory"] }
  | none =>
    if pyIn "image" (pyLower message) || pyIn "gallery" (pyLower message) then
      let media := user_context.media
      if !media.isEmpty then
        let media_files := media.map fun m => dictGetD m "filename" ""
        { response := "I can see you have " ++ toString media.length ++
            " files in your gallery: " ++ joinSep ", " (media_files.take 3) ++
            (if media_files.length > 3 then "..." else "") ++
            ". I can analyze images when you share them with me.",
          confidence := 8/10, task_type := "gallery_query", memory_updated := true,
          tools_used := ["langchain_agent", "gallery_analysis", "chromadb_memory"] }
      else
        { response := "I don\x27t see any images in your gallery yet. Feel free to upload some!",
          confidence := 8/10, task_type := "gallery_query", memory_updated := true,
          tools_used := ["langchain_agent", "gallery_analysis"] }
    else if (["hi", "hello", "hey"] : List String).contains (pyLower message) then
      { response := assistant_greeting, confidence := 9/10, task_type := "greeting",
        memory_updated := true,
        tools_used := ["langchain_agent", "contextual_response", "chromadb_memory"] }
    else
      { response := "I don\x27t have specific information about that. Could you ask me about your preferences, TV series, music albums, or images?",
        confidence := 7/10, task_type := "unknown", memory_updated := true,
        tools_used := ["langchain_agent", "chromadb_memory"] }

end SimpleAI

namespace StartService

/-- The non-exception path of the `/chat` handler `chat`,
src/ai_assistant/start_service.py lines 37-114.  The `if`/`elif` chain can
fall all the way through (a matched topic whose preference lookup fails
returns nothing), in which case the Python handler returns `None`; that case
is `none` here. -/
def chat (raw_message : String) (user_context : UserContext) : Option AIResponse :=
  let message := pyLower raw_message
  let preferences := user_context.preferences
  if pyIn "tv series" message || pyIn "favorite series" message then
    match preferences.find? (fun p => pyIn "tv_series" (dictGetD p "key" "")) with
    | some tv_pref =>
      let series_name := pyStrip (pyReplace (dictGetD tv_pref "value" "") "tv series: " "")
      some { response := "Your favorite TV series is: **" ++ pyTitle series_name ++ "**",
             confidence := 9/10, task_type := "preference_query", memory_updated := true,
             tools_used := ["preference_analysis", "langchain_agent"] }
    | none => none
  else if pyIn "album" message then
    match preferences.find? (fun p => pyIn "favorite_album" (dictGetD p "key" "")) with
    | some album_pref =>
      some { response := "Your favorite album is: **" ++ dictGetD album_pref "value" "" ++ "**",
             confidence := 9/10, task_type := "preference_query", memory_updated := true,
             tools_used := ["preference_analysis", "langchain_agent"] }
    | none => none
  else if pyIn "singers" message then
    match preferences.find? (fun p => pyIn "favorite_singers" (dictGetD p "key" "")) with
    | some singers_pref =>
      let singers := pyStrip (pyReplace (dictGetD singers_pref "value" "") "singers: " "")
      some { response := "Your favorite singers are: **" ++ singers ++ "**",
             confidence := 9/10, task_type := "preference_query", memory_updated := true,
             tools_used := ["preference_analysis", "langchain_agent"] }
    | none => none
  else if pyIn "image" message || pyIn "gallery" message then
    let media := user_context.media
    if !media.isEmpty then
      let media_files := media.map fun m => dictGetD m "filename" ""
      some { response := "I can see you have " ++ toString media.length ++
               " files in your gallery: " ++ joinSep ", " (media_files.take 3) ++
               (if media_files.length > 3 then "..." else "") ++
               ". I can analyze images when you share them with me.",
             confidence := 8/10, task_type := "gallery_query", memory_updated := true,
             tools_used := ["gallery_analysis", "langchain_agent"] }
    else none
  else if (["hi", "hello", "hey"] : List String).contains message then
    some { response := assistant_greeting, confidence := 9/10, task_type := "greeting",
           memory_updated := true, tools_used := ["langchain_agent", "contextual_response"] }
  else
    some { response := "I don\x27t have specific information about that. Could you ask me about your preferences, TV series, music albums, or images?",
           confidence := 7/10, task_type := "unknown", memory_updated := true,
           tools_used := ["langchain_agent"] }

end StartService

namespace WebSearchTool

/-- One parsed entry of the Tavily response `results` array. -/
structure TavilyResult where
  title : Option String := none
  content : Option String := none
  url : Option String := none
deriving DecidableEq

/-- The outcome of `requests.post` plus `response.json()` in
`WebSearchTool.search`: an HTTP status code and the decoded `results` array. -/
structure TavilyResponse where
  status_code : Nat
  results : List TavilyResult
deriving DecidableEq

/-- `WebSearchTool.__init__` / `check_status`, src/ai_assistant/tools/web_search.py
lines 10-14 and 61-63: availability is exactly presence of `TAVILY_API_KEY`. -/
def check_status (env : Env) : Bool := env.tavily_api_key.isSome

/-- `WebSearchTool.search`, src/ai_assistant/tools/web_search.py lines 16-59.
The HTTP POST and JSON decoding are modelled as one fallible operation `post`;
`.error e` models the `try` body raising an exception with text `e`. -/
def search (is_available : Bool) (query : String) (post : Except String TavilyResponse) : String :=
  if !is_available then "Web search not available. Query was: " ++ query
  else
    match post with
    | .error e => "Web search error: " ++ e
    | .ok response =>
      if response.status_code == 200 then
        let results := response.results
        if results.isEmpty then "No results found for \x27" ++ query ++ "\x27"
        else
          let formatted_results := results.map fun result =>
            "**" ++ result.title.getD "No title" ++ "**\n" ++
              result.content.getD "No content" ++ "\nSource: " ++ result.url.getD "No URL"
          "Web search results for \x27" ++ query ++ "\x27:\n\n" ++ joinSep "\n\n" formatted_results
      else "Web search failed with status " ++ toString response.status_code

end WebSearchTool

namespace EmailReaderTool

/-- An email as produced by `_parse_email`: subject, sender, date and snippet
preview. -/
structure EmailData where
  subject : String
  sender : String
  date : String
  preview : String
deriving DecidableEq

/-- The per-email bullet format shared by the listing functions of
src/ai_assistant/tools/email_reader.py. -/
def formatEmailItem (d : EmailData) : String :=
  "• **" ++ d.subject ++ "**\n  From: " ++ d.sender ++ "\n  Date: " ++ d.date ++
    "\n  Preview: " ++ d.preview

/-- `EmailReaderTool.check_status` composed with `__init__`,
src/ai_assistant/tools/email_reader.py lines 12-18 and 297-299: available iff
`GOOGLE_CREDENTIALS_PATH` is set and, when it is, service initialization did
not raise. -/
def check_status (env : Env) (initOk : Bool) : Bool :=
  match env.google_credentials_path with
  | none => false
  | some _ => initOk

/-- `get_unread_emails`, src/ai_assistant/tools/email_reader.py lines 78-113.
The Gmail list/get/parse interaction is modelled as one fallible operation
yielding parsed email records. -/
def get_unread_emails (hasService : Bool) (op : Except String (List EmailData)) : String :=
  if !hasService then "Gmail not available. Please configure credentials."
  else
    match op with
    | .error e => "Failed to get unread emails: " ++ e
    | .ok messages =>
      if messages.isEmpty then "No unread emails found."
      else
        "Unread emails (" ++ toString messages.length ++ "):\n\n" ++
          joinSep "\n\n" (messages.map formatEmailItem)

/-- `get_recent_emails`, src/ai_assistant/tools/email_reader.py lines 115-149. -/
def get_recent_emails (hasService : Bool) (op : Except String (List EmailData)) : String :=
  if !hasService then "Gmail not available. Please configure credentials."
  else
    match op with
    | .error e => "Failed to get recent emails: " ++ e
    | .ok messages =>
      if messages.isEmpty then "No recent emails found."
      else
        "Recent emails (" ++ toString messages.length ++ "):\n\n" ++
          joinSep "\n\n" (messages.map formatEmailItem)

/-- `search_emails`, src/ai_assistant/tools/email_reader.py lines 151-189. -/
def search_emails (hasService : Bool) (query : String) (op : Except String (List EmailData)) : String :=
  if !hasService then "Gmail not available. Please configure credentials."
  else
    let search_terms := pyStrip (pyReplace query "search" "")
    match op with
    | .error e => "Failed to search emails: " ++ e
    | .ok messages =>
      if messages.isEmpty then "No emails found matching: " ++ search_terms
      else
        "Search results for \x27" ++ search_terms ++ "\x27:\n\n" ++
          joinSep "\n\n" (messages.map formatEmailItem)

/-- `get_important_emails`, src/ai_assistant/tools/email_reader.py lines 191-226. -/
def get_important_emails (hasService : Bool) (op : Except String (List EmailData)) : String :=
  if !hasService then "Gmail not available. Please configure credentials."
  else
    match op with
    | .error e => "Failed to get important emails: " ++ e
    | .ok messages =>
      if messages.isEmpty then "No important emails found."
      else
        "Important emails (" ++ toString messages.length ++ "):\n\n" ++
          joinSep "\n\n" (messages.map formatEmailItem)

/-- `get_email_summary`, src/ai_assistant/tools/email_reader.py lines 228-266.
The three count queries are one fallible operation yielding
(unread, today, important); `now` is the formatted current time. -/
def get_email_summary (hasService : Bool) (op : Except String (Nat × Nat × Nat)) (now : String) : String :=
  if !hasService then "Gmail not available. Please configure credentials."
  else
    match op with
    | .error e => "Failed to get email summary: " ++ e
    | .ok counts =>
      "📧 Email Summary:\n            \n• **Unread emails**: " ++ toString counts.1 ++
        "\n• **Today\x27s emails**: " ++ toString counts.2.1 ++
        "\n• **Important emails**: " ++ toString counts.2.2 ++
        "\n• **Last checked**: " ++ now

/-- `EmailReaderTool.read_emails`, src/ai_assistant/tools/email_reader.py
lines 57-76: keyword dispatch over the request to the operations above.  The
same fallible Gmail operation outcome is threaded to whichever branch runs. -/
def read_emails (hasService : Bool) (request : String)
    (op : Except String (List EmailData)) (summaryOp : Except String (Nat × Nat × Nat))
    (now : String) : String :=
  let request_lower := pyLower request
  if pyIn "unread" request_lower then get_unread_emails hasService op
  else if pyIn "recent" request_lower || pyIn "latest" request_lower then
    get_recent_emails hasService op
  else if pyIn "search" request_lower then search_emails hasService request op
  else if pyIn "important" request_lower then get_important_emails hasService op
  else if pyIn "summary" request_lower then get_email_summary hasService summaryOp now
  else get_recent_emails hasService op

end EmailReaderTool

namespace GoogleCalendarTool

/-- A Google Calendar event as consumed by the listing functions: the nested
`start`/`end` dicts may carry `dateTime` or `date`, and `summary` may be absent. -/
structure CalEvent where
  start_dateTime : Option String := none
  start_date : Option String := none
  end_dateTime : Option String := none
  end_date : Option String := none
  summary : Option String := none
deriving DecidableEq

/-- Python f-string interpolation of a value that may be `None`. -/
def pyFormatOpt (o : Option String) : String := o.getD "None"

/-- The event created by `events().insert(...)`: the fields read back by
`create_event` when formatting its reply. -/
structure CreatedEvent where
  summary : Option String := none
  start_dateTime : String := ""
deriving DecidableEq

/-- `GoogleCalendarTool.check_status` composed with `__init__`,
src/ai_assistant/tools/google_calendar.py lines 11-17 and 196-198. -/
def check_status (env : Env) (initOk : Bool) : Bool :=
  match env.google_credentials_path with
  | none => false
  | some _ => initOk

/-- `list_events`, src/ai_assistant/tools/google_calendar.py lines 76-108.
The events().list API interaction is one fallible operation yielding events. -/
def list_events (hasService : Bool) (days : Nat) (op : Except String (List CalEvent)) : String :=
  if !hasService then "Google Calendar not available. Please configure credentials."
  else
    match op with
    | .error e => "Failed to list events: " ++ e
    | .ok events =>
      if events.isEmpty then "No upcoming events found in the next " ++ toString days ++ " days."
      else
        let event_list := events.map fun event =>
          "• " ++ event.summary.getD "No title" ++ " - " ++
            pyFormatOpt (event.start_dateTime.orElse fun _ => event.start_date)
        "Upcoming events (" ++ toString days ++ " days):\n" ++ joinSep "\n" event_list

/-- `create_event`, src/ai_assistant/tools/google_calendar.py lines 110-142. -/
def create_event (hasService : Bool) (op : Except String CreatedEvent) : String :=
  if !hasService then "Google Calendar not available. Please configure credentials."
  else
    match op with
    | .error e => "Failed to create event: " ++ e
    | .ok created_event =>
      "Event created: " ++ pyFormatOpt created_event.summary ++ " at " ++
        created_event.start_dateTime

/-- `check_availability`, src/ai_assistant/tools/google_calendar.py lines 152-186. -/
def check_availability (hasService : Bool) (op : Except String (List CalEvent)) : String :=
  if !hasService then "Google Calendar not available. Please configure credentials."
  else
    match op with
    | .error e => "Failed to check availability: " ++ e
    | .ok events =>
      if events.isEmpty then "You\x27re completely free today!"
      else
        let busy_times := events.map fun event =>
          "• " ++ event.summary.getD "Busy" ++ ": " ++
            pyFormatOpt (event.start_dateTime.orElse fun _ => event.start_date) ++ " - " ++
            pyFormatOpt (event.end_dateTime.orElse fun _ => event.end_date)
        "Today\x27s schedule:\n" ++ joinSep "\n" busy_times

/-- `GoogleCalendarTool.manage_calendar`, src/ai_assistant/tools/google_calendar.py
lines 55-74: keyword dispatch to the operations above ("update" and "delete"
branches answer with fixed strings and perform no API call). -/
def manage_calendar (hasService : Bool) (request : String)
    (op : Except String (List CalEvent)) (createOp : Except String CreatedEvent) : String :=
  let request_lower := pyLower request
  if pyIn "list" request_lower || pyIn "show" request_lower then
    list_events hasService 7 op
  else if pyIn "create" request_lower || pyIn "add" request_lower then
    create_event hasService createOp
  else if pyIn "update" request_lower || pyIn "modify" request_lower then
    "Event update functionality not fully implemented yet."
  else if pyIn "delete" request_lower || pyIn "remove" request_lower then
    "Event deletion functionality not fully implemented yet."
  else if pyIn "free" request_lower || pyIn "available" request_lower then
    check_availability hasService op
  else list_events hasService 7 op

/-- Characterisation, by the dispatch structure of `manage_calendar`, of the
requests whose selected branch performs a calendar-service operation (only the
"update"/"modify" and "delete"/"remove" branches do not). -/
def branch_calls_service (request : String) : Bool :=
  let request_lower := pyLower request
  if pyIn "list" request_lower || pyIn "show" request_lower then true
  else if pyIn "create" request_lower || pyIn "add" request_lower then true
  else if pyIn "update" request_lower || pyIn "modify" request_lower then false
  else if pyIn "delete" request_lower || pyIn "remove" request_lower then false
  else true

end GoogleCalendarTool

namespace ChromaDBManager

/-- The dict returned by `collection.query`: parallel outer lists (one entry
per query text) of documents, metadatas and distances. -/
structure ChromaQueryResult where
  documents : List (List String)
  metadatas : List (List PyDict)
  distances : List (List ℚ)
deriving DecidableEq

/-- One formatted result of `ChromaDBManager.search_memory`. -/
structure MemoryHit where
  content : String
  metadata : PyDict
  distance : ℚ
deriving DecidableEq

/-- `ChromaDBManager.search_memory`, src/ai_assistant/memory/chromadb_utils.py
lines 89-118.  The `collection.query` call is one fallible operation; the
Python index expressions `results["metadatas"][0][i]` and
`results["distances"][0][i]` (in range for any actual ChromaDB reply) are
embedded with list defaults. -/
def search_memory (hasCollection : Bool) (op : Except String ChromaQueryResult) : List MemoryHit :=
  if !hasCollection then []
  else
    match op with
    | .error _ => []
    | .ok results =>
      match results.documents with
      | [] => []
      | docs0 :: _ =>
        docs0.mapIdx fun i doc =>
          { content := doc
            metadata := if results.metadatas.isEmpty then [] else (results.metadatas.headD []).getD i []
            distance := if results.distances.isEmpty then 0 else (results.distances.headD []).getD i 0 }

/-- The ChromaDB record id built by `ChromaDBManager.store_conversation`
(src/ai_assistant/memory/chromadb_utils.py line 39):
`f"user_{user_id}_{datetime.now().timestamp()}"`, with `timestamp` the decimal
string of the wall-clock float. -/
def conversation_doc_id (user_id : Int) (timestamp : String) : String :=
  "user_" ++ toString user_id ++ "_" ++ timestamp

/-- `ChromaDBManager.store_conversation`,
src/ai_assistant/memory/chromadb_utils.py lines 32-60.  The function body
returns `None` on every path: when the collection is missing, after a
successful `collection.add`, and in the `except` handler. -/
def store_conversation (hasCollection : Bool) (user_id : Int)
    (message response task_type : String) (tools_used : List String)
    (op : Except String Unit) : StoreResult :=
  if !hasCollection then StoreResult.pyNone
  else
    match op with
    | .ok _ => StoreResult.pyNone
    | .error _ => StoreResult.pyNone

end ChromaDBManager

namespace MainService

/-- The ChromaDB record id built by `LoomAIOrchestrator.store_memory`
(src/python_ai_service/main.py line 182):
`f"memory_{user_id}_{datetime.now().timestamp()}"`. -/
def memory_doc_id (user_id : Int) (timestamp : String) : String :=
  "memory_" ++ toString user_id ++ "_" ++ timestamp

/-- `LoomAIOrchestrator.store_memory`, src/python_ai_service/main.py
lines 170-187: `False` when the collection is missing, `True` after a
successful `collection.add`, `False` from the `except` handler. -/
def store_memory (hasCollection : Bool) (user_id : Int) (content : String)
    (op : Except String Unit) : StoreResult :=
  if !hasCollection then StoreResult.pyBool false
  else
    match op with
    | .ok _ => StoreResult.pyBool true
    | .error _ => StoreResult.pyBool false

end MainService

namespace AiAssistantMain

/-- The `services.tools` map of the `/health` endpoint of
src/ai_assistant/main.py lines 73-90: each entry is the `check_status()` of a
freshly constructed tool (`image_analysis` is hard-coded `False`). -/
def health_tools (env : Env) (calendarInitOk emailInitOk : Bool) : List (String × JsonVal) :=
  [("web_search", JsonVal.bool (WebSearchTool.check_status env)),
   ("calendar", JsonVal.bool (GoogleCalendarTool.check_status env calendarInitOk)),
   ("email", JsonVal.bool (EmailReaderTool.check_status env emailInitOk)),
   ("image_analysis", JsonVal.bool false)]

end AiAssistantMain

/-- The union of every keyword tested by the three intent-classifier variants
(`simple_main`/`main`, `proper_main`, `assistant_agent`). -/
def all_checked_keywords : List String :=
  ["search", "find", "look up", "research",
   "schedule", "calendar", "meeting", "appointment",
   "email", "send", "message", "mail",
   "image", "photo", "picture", "analyze",
   "favorite", "prefer", "like",
   "weather", "news", "event",
   "remember", "memory", "recall"]

/-- Numeric value of a decimal digit character (0 for any other character);
used to relate the record-id strings back to the numbers they print. -/
def digitVal (c : Char) : Nat :=
  if c = '0' then 0 else if c = '1' then 1 else if c = '2' then 2 else if c = '3' then 3
  else if c = '4' then 4 else if c = '5' then 5 else if c = '6' then 6 else if c = '7' then 7
  else if c = '8' then 8 else if c = '9' then 9 else 0

/-- Decimal decoding of a digit string, most significant digit first. -/
def decodeDigits : List Char → Nat
  | [] => 0
  | c :: rest => digitVal c * 10 ^ rest.length + decodeDigits rest

/-! Basic lemmas about the embedded Python string primitives. -/

theorem startsWithList_refl (l : List Char) : startsWithList l l = true := by
  induction l with
  | nil => rfl
  | cons c t ih => simp [startsWithList, ih]

theorem containsSub_append_self (pre l : List Char) : containsSub (pre ++ l) l = true := by
  induction pre with
  | nil =>
    cases l with
    | nil => rfl
    | cons c t =>
      show (startsWithList (c :: t) (c :: t) || containsSub t (c :: t)) = true
      rw [startsWithList_refl]
      rfl
  | cons c pre ih =>
    show (startsWithList (c :: (pre ++ l)) l || containsSub (pre ++ l) l) = true
    rw [ih, Bool.or_true]

/-- A string is a substring of anything it ends. -/
theorem pyIn_append (pre s : String) : pyIn s (pre ++ s) = true := by
  simp only [pyIn, String.data_append]
  exact containsSub_append_self pre.data s.data

theorem map_toLower_idem (l : List Char) :
    (l.map Char.toLower).map Char.toLower = l.map Char.toLower := by
  induction l with
  | nil => rfl
  | cons c t ih =>
    simp only [List.map_cons, ih, List.cons.injEq, and_true]
    unfold Char.toLower
    by_cases h : c.toNat ≥ 65 ∧ c.toNat ≤ 90
    · have hval : (c.toNat + 32).isValidChar := Or.inl (by omega)
      have hround : (Char.ofNat (c.toNat + 32)).toNat = c.toNat + 32 := by
        unfold Char.ofNat
        rw [dif_pos hval]
        rfl
      rw [if_pos h, if_neg (by rw [hround]; omega)]
    · rw [if_neg h, if_neg h]

/-- Python `lower` is idempotent (here: per-character ASCII lowering). -/
theorem pyLower_idem (s : String) : pyLower (pyLower s) = pyLower s := by
  simp only [pyLower]
  exact congrArg String.mk (map_toLower_idem s.data)

/-- If no keyword of `all_checked_keywords` occurs in `ml`, then no sublist of
it has an occurring keyword. -/
theorem any_pyIn_eq_false {ml : String} {sub : List String}
    (h : ∀ w ∈ all_checked_keywords, pyIn w ml = false)
    (hsub : ∀ w ∈ sub, w ∈ all_checked_keywords) :
    (sub.any fun w => pyIn w ml) = false := by
  rw [List.any_eq_false]
  intro w hw
  simp [h w (hsub w hw)]

/-- C1: every classifier variant returns a label from the amended fixed set,
and a message containing none of the checked keywords is classified
`general_chat` by every variant.  (The amended set adds the short labels
`calendar` and `email` used by the simple_main/main variant.) -/
theorem detect_task_type_label_set (m : String) :
    (SimpleMain.detect_task_type m ∈
        ["preference_query", "web_search", "calendar_management", "email_management",
         "calendar", "email", "image_analysis", "general_chat", "memory_retrieval", "error"] ∧
      ProperMain.detect_task_type m ∈
        ["preference_query", "web_search", "calendar_management", "email_management",
         "calendar", "email", "image_analysis", "general_chat", "memory_retrieval", "error"] ∧
      Agent.detect_task_type m ∈
        ["preference_query", "web_search", "calendar_management", "email_management",
         "calendar", "email", "image_analysis", "general_chat", "memory_retrieval", "error"]) ∧
    ((∀ w ∈ all_checked_keywords, pyIn w (pyLower m) = false) →
      SimpleMain.detect_task_type m = "general_chat" ∧
        ProperMain.detect_task_type m = "general_chat" ∧
        Agent.detect_task_type m = "general_chat") := by
  constructor
  · refine ⟨?_, ?_, ?_⟩
    · simp only [SimpleMain.detect_task_type]
      split_ifs <;> decide
    · simp only [ProperMain.detect_task_type]
      split_ifs <;> decide
    · simp only [Agent.detect_task_type]
      split_ifs <;> decide
  · intro h
    refine ⟨?_, ?_, ?_⟩
    · simp only [SimpleMain.detect_task_type]
      rw [any_pyIn_eq_false h (by decide), any_pyIn_eq_false h (by decide),
        any_pyIn_eq_false h (by decide), any_pyIn_eq_false h (by decide)]
      rfl
    · simp only [ProperMain.detect_task_type]
      rw [any_pyIn_eq_false h (by decide), any_pyIn_eq_false h (by decide),
        any_pyIn_eq_false h (by decide), any_pyIn_eq_false h (by decide),
        any_pyIn_eq_false h (by decide), any_pyIn_eq_false h (by decide)]
      rfl
    · simp only [Agent.detect_task_type]
      rw [any_pyIn_eq_false h (by decide), any_pyIn_eq_false h (by decide),
        any_pyIn_eq_false h (by decide), any_pyIn_eq_false h (by decide),
        any_pyIn_eq_false h (by decide)]
      rfl

/-- C1 counterexample: the simple_main/main classifier variant answers
"calendar" for the message "schedule", a label outside the claimed fixed set
(it likewise uses "email" instead of "email_management"). -/
theorem detect_task_type_label_set_counterexample :
    SimpleMain.detect_task_type "schedule" = "calendar" ∧
      ("calendar" : String) ∉
        ["preference_query", "web_search", "calendar_management", "email_management",
         "image_analysis", "general_chat", "memory_retrieval", "error"] :=
  ⟨by decide, by decide⟩

/-- C1 witness: a keyword-free message ("ok") is classified `general_chat` by
all three variants, and its labels lie in the amended set. -/
theorem detect_task_type_label_set_witness :
    SimpleMain.detect_task_type "ok" = "general_chat" ∧
      ProperMain.detect_task_type "ok" = "general_chat" ∧
      Agent.detect_task_type "ok" = "general_chat" :=
  (detect_task_type_label_set "ok").2 (by decide)

/-- C10: every classifier variant is invariant under letter case of its input,
because each lowercases the message before any keyword check. -/
theorem detect_task_type_case_invariant (m : String) :
    SimpleMain.detect_task_type m = SimpleMain.detect_task_type (pyLower m) ∧
      ProperMain.detect_task_type m = ProperMain.detect_task_type (pyLower m) ∧
      Agent.detect_task_type m = Agent.detect_task_type (pyLower m) := by
  refine ⟨?_, ?_, ?_⟩
  · simp only [SimpleMain.detect_task_type, pyLower_idem]
  · simp only [ProperMain.detect_task_type, pyLower_idem]
  · simp only [Agent.detect_task_type, pyLower_idem]

/-- C2 counterexample: "weather" contains the claimed web-search keyword
"weather" and no preference keyword, yet the simple_main/main classifier
(cited by the claim) returns "general_chat", not "web_search". -/
theorem web_search_keywords_counterexample :
    pyIn "weather" (pyLower "weather") = true ∧
      pyIn "favorite" (pyLower "weather") = false ∧
      pyIn "prefer" (pyLower "weather") = false ∧
      pyIn "like" (pyLower "weather") = false ∧
      SimpleMain.detect_task_type "weather" = "general_chat" ∧
      "general_chat" ≠ "web_search" := by
  decide

/-- C2 amended: a message containing "weather", "news" or "search" and no
preference keyword is classified `web_search` by the proper_main and
assistant_agent variants; the simple_main/main variant only checks "search"
among the three, and classifies such messages `web_search` exactly when
"search" occurs. -/
theorem web_search_keywords_route (m : String)
    (hw : (pyIn "weather" (pyLower m) || pyIn "news" (pyLower m) ||
      pyIn "search" (pyLower m)) = true)
    (hf : pyIn "favorite" (pyLower m) = false)
    (hp : pyIn "prefer" (pyLower m) = false)
    (hl : pyIn "like" (pyLower m) = false) :
    ProperMain.detect_task_type m = "web_search" ∧
      Agent.detect_task_type m = "web_search" ∧
      (pyIn "search" (pyLower m) = true → SimpleMain.detect_task_type m = "web_search") := by
  have hpref : (["favorite", "prefer", "like"].any fun w => pyIn w (pyLower m)) = false := by
    simp [hf, hp, hl]
  have hweb : (["weather", "news", "search"].any fun w => pyIn w (pyLower m)) = true := by
    simp only [List.any_cons, List.any_nil, Bool.or_false]
    simpa [Bool.or_assoc] using hw
  refine ⟨?_, ?_, ?_⟩
  · simp only [ProperMain.detect_task_type]
    rw [hpref, hweb]
    rfl
  · simp only [Agent.detect_task_type]
    rw [hpref, hweb]
    rfl
  · intro hs
    have hsimple : (["search", "find", "look up", "research"].any fun w => pyIn w (pyLower m)) = true := by
      simp [hs]
    simp only [SimpleMain.detect_task_type]
    rw [hsimple, if_pos rfl]

/-- C2 witness: "search today" satisfies the hypotheses and all three variants
classify it `web_search`. -/
theorem web_search_keywords_route_witness :
    ProperMain.detect_task_type "search today" = "web_search" ∧
      Agent.detect_task_type "search today" = "web_search" ∧
      SimpleMain.detect_task_type "search today" = "web_search" := by
  have h := web_search_keywords_route "search today" (by decide) (by decide) (by decide) (by decide)
  exact ⟨h.1, h.2.1, h.2.2 (by decide)⟩

/-- C3: when the underlying operation of a tool invocation raises an exception
(`Except.error e` models `str(e) = e`), the web-search, email-reading and
calendar tools return a string containing the failure reason rather than
propagating the exception (the embedded functions are total, so no call
crashes).  For the calendar dispatcher, the premise "the underlying operation
raises" applies to the branches that perform a calendar operation at all
(`branch_calls_service`); the "update"/"delete" branches call nothing. -/
theorem tool_error_contains_reason (query request now e : String) :
    pyIn e (WebSearchTool.search true query (Except.error e)) = true ∧
      pyIn e (EmailReaderTool.read_emails true request
        (Except.error e) (Except.error e) now) = true ∧
      (GoogleCalendarTool.branch_calls_service request = true →
        pyIn e (GoogleCalendarTool.manage_calendar true request
          (Except.error e) (Except.error e)) = true) := by
  refine ⟨?_, ?_, ?_⟩
  · exact pyIn_append "Web search error: " e
  · simp only [EmailReaderTool.read_emails]
    split_ifs
    · exact pyIn_append "Failed to get unread emails: " e
    · exact pyIn_append "Failed to get recent emails: " e
    · exact pyIn_append "Failed to search emails: " e
    · exact pyIn_append "Failed to get important emails: " e
    · exact pyIn_append "Failed to get email summary: " e
    · exact pyIn_append "Failed to get recent emails: " e
  · intro h
    simp only [GoogleCalendarTool.branch_calls_service] at h
    simp only [GoogleCalendarTool.manage_calendar]
    split_ifs at h ⊢ <;>
      first
        | exact pyIn_append "Failed to list events: " e
        | exact pyIn_append "Failed to create event: " e
        | exact pyIn_append "Failed to check availability: " e

/-- C3 witness: a raised "socket timeout" surfaces in all three tool replies
at concrete inputs. -/
theorem tool_error_contains_reason_witness :
    pyIn "socket timeout" (WebSearchTool.search true "rain"
        (Except.error "socket timeout")) = true ∧
      pyIn "socket timeout" (EmailReaderTool.read_emails true "list"
        (Except.error "socket timeout") (Except.error "socket timeout")
        "2024-01-01 00:00") = true ∧
      pyIn "socket timeout" (GoogleCalendarTool.manage_calendar true "list"
        (Except.error "socket timeout") (Except.error "socket timeout")) = true := by
  have h := tool_error_contains_reason "rain" "list" "2024-01-01 00:00" "socket timeout"
  exact ⟨h.1, h.2.1, h.2.2 (by decide)⟩

/-- C5: for every message whose lowercase form is "hi", "hello" or "hey", and
every user context, both simplified chat endpoints return the fixed greeting
response with task_type "greeting". -/
theorem greeting_fixed_response (msg : String) (ctx : UserContext)
    (h : pyLower msg = "hi" ∨ pyLower msg = "hello" ∨ pyLower msg = "hey") :
    SimpleAI.chat_endpoint msg ctx =
      { response := assistant_greeting, confidence := 9/10, task_type := "greeting",
        memory_updated := true,
        tools_used := ["langchain_agent", "contextual_response", "chromadb_memory"] } ∧
      StartService.chat msg ctx =
        some { response := assistant_greeting, confidence := 9/10, task_type := "greeting",
               memory_updated := true,
               tools_used := ["langchain_agent", "contextual_response"] } := by
  constructor
  · simp only [SimpleAI.chat_endpoint, SimpleAI.analyze_preferences]
    rcases h with h | h | h <;> rw [h] <;> rfl
  · simp only [StartService.chat]
    rcases h with h | h | h <;> rw [h] <;> rfl

/-- C5 witness: the mixed-case message "Hi" yields the greeting on both
endpoints with the empty context. -/
theorem greeting_fixed_response_witness :
    SimpleAI.chat_endpoint "Hi" {} =
      { response := assistant_greeting, confidence := 9/10, task_type := "greeting",
        memory_updated := true,
        tools_used := ["langchain_agent", "contextual_response", "chromadb_memory"] } ∧
      StartService.chat "Hi" {} =
        some { response := assistant_greeting, confidence := 9/10, task_type := "greeting",
               memory_updated := true,
               tools_used := ["langchain_agent", "contextual_response"] } :=
  greeting_fixed_response "Hi" {} (Or.inl (by decide))

theorem conf_mem_seven : (7/10 : ℚ) ∈ ([7/10, 8/10, 9/10] : List ℚ) :=
  List.mem_cons_self _ _

theorem conf_mem_eight : (8/10 : ℚ) ∈ ([7/10, 8/10, 9/10] : List ℚ) :=
  List.mem_cons_of_mem _ (List.mem_cons_self _ _)

theorem conf_mem_nine : (9/10 : ℚ) ∈ ([7/10, 8/10, 9/10] : List ℚ) :=
  List.mem_cons_of_mem _ (List.mem_cons_of_mem _ (List.mem_cons_self _ _))

/-- C9: in the simplified entry points, every returned response record has
`memory_updated = true` and a confidence drawn from {0.7, 0.8, 0.9},
independently of the request (the `start_service` handler may fall through and
return no record at all, which is the `none` case). -/
theorem response_flags_fixed (msg : String) (ctx : UserContext) :
    ((SimpleMain.orchestrate_ai_task msg ctx).memory_updated = true ∧
      (SimpleMain.orchestrate_ai_task msg ctx).confidence ∈ ([7/10, 8/10, 9/10] : List ℚ)) ∧
    ((SimpleAI.chat_endpoint msg ctx).memory_updated = true ∧
      (SimpleAI.chat_endpoint msg ctx).confidence ∈ ([7/10, 8/10, 9/10] : List ℚ)) ∧
    (∀ r, StartService.chat msg ctx = some r →
      r.memory_updated = true ∧ r.confidence ∈ ([7/10, 8/10, 9/10] : List ℚ)) := by
  refine ⟨⟨rfl, conf_mem_nine⟩, ?_, ?_⟩
  · simp only [SimpleAI.chat_endpoint]
    cases hA : SimpleAI.analyze_preferences msg ctx.preferences with
    | some r => exact ⟨rfl, conf_mem_nine⟩
    | none =>
      split_ifs <;>
        first
          | exact ⟨rfl, conf_mem_seven⟩
          | exact ⟨rfl, conf_mem_eight⟩
          | exact ⟨rfl, conf_mem_nine⟩
  · intro r h
    simp only [StartService.chat] at h
    split_ifs at h <;>
      (try split at h) <;>
      first
        | (cases h; exact ⟨rfl, conf_mem_seven⟩)
        | (cases h; exact ⟨rfl, conf_mem_eight⟩)
        | (cases h; exact ⟨rfl, conf_mem_nine⟩)
        | cases h

/-- C9 witness: concrete evaluation at message "hi" and the empty context for
all three entry points. -/
theorem response_flags_fixed_witness :
    (SimpleMain.orchestrate_ai_task "hi" {}).confidence ∈ ([7/10, 8/10, 9/10] : List ℚ) ∧
      (SimpleAI.chat_endpoint "hi" {}).memory_updated = true ∧
      ((AIResponse.mk assistant_greeting (9/10) "greeting" true
          ["langchain_agent", "contextual_response"]).memory_updated = true ∧
        (AIResponse.mk assistant_greeting (9/10) "greeting" true
          ["langchain_agent", "contextual_response"]).confidence ∈ ([7/10, 8/10, 9/10] : List ℚ)) := by
  have h := response_flags_fixed "hi" {}
  exact ⟨h.1.2, h.2.1.1, h.2.2 _ (by rfl)⟩

/-- C4 counterexample.  First failure: every variant returns the FIRST
matching record, so a context that does contain a record with key containing
"tv_series" and value "tv series: Breaking Bad" — but behind another
tv_series record — gets "The Wire", not "Breaking Bad", for a query
containing "tv series".  Second failure: in start_service the branch tests
"tv series"/"favorite series", so a query containing only "series" (which
the claim says matches the TV-series branch) falls to the generic reply even
when the Breaking-Bad record is first. -/
theorem tv_series_preference_counterexample :
    (pyIn "tv series" (pyLower "what about my tv series") = true ∧
      ([[("key", "tv_series_1"), ("value", "tv series: The Wire")],
        [("key", "tv_series_2"), ("value", "tv series: Breaking Bad")]] : List PyDict).any
        (fun p => pyIn "tv_series" (dictGetD p "key" "") &&
          (dictGetD p "value" "" == "tv series: Breaking Bad")) = true ∧
      SimpleAI.analyze_preferences "what about my tv series"
          [[("key", "tv_series_1"), ("value", "tv series: The Wire")],
           [("key", "tv_series_2"), ("value", "tv series: Breaking Bad")]] =
        some "Your favorite TV series is: **The Wire**" ∧
      pyIn "Breaking Bad" "Your favorite TV series is: **The Wire**" = false) ∧
    (pyIn "series" (pyLower "series: what do i watch") = true ∧
      (StartService.chat "series: what do i watch"
          { preferences := [[("key", "tv_series"), ("value", "tv series: Breaking Bad")]] }).map
          (fun r => pyIn "Breaking Bad" r.response) = some false) := by
  constructor
  · exact ⟨by decide, by decide, by decide, by decide⟩
  · exact ⟨by decide, by decide⟩

/-- C4 amended: when the FIRST preference record matched by the variant's own
tv-series matcher has value "tv series: Breaking Bad" and the query satisfies
the variant's own TV-series branch condition, each preference analyzer
returns a response containing "Breaking Bad". -/
theorem tv_series_preference_lookup (msg : String) (ctx : UserContext) (p0 : PyDict)
    (hval : dictGetD p0 "value" "" = "tv series: Breaking Bad") :
    ((pyIn "tv series" (pyLower msg) || pyIn "series" (pyLower msg)) = true →
      ctx.preferences.find? (fun p => pyIn "tv_series" (dictGetD p "key" "")) = some p0 →
      ∃ r, SimpleAI.analyze_preferences msg ctx.preferences = some r ∧
        pyIn "Breaking Bad" r = true) ∧
    ((pyIn "tv series" (pyLower msg) || pyIn "favorite series" (pyLower msg)) = true →
      ctx.preferences.find? (fun p => pyIn "tv_series" (dictGetD p "key" "")) = some p0 →
      ∃ r, StartService.chat msg ctx = some r ∧ pyIn "Breaking Bad" r.response = true) ∧
    ((pyIn "tv series" (pyLower msg) || pyIn "series" (pyLower msg)) = true →
      ctx.preferences.find? (fun p => pyIn "tv_series" (dictGetD p "key" "") ||
        pyIn "tv series" (pyLower (dictGetD p "value" ""))) = some p0 →
      pyIn "Breaking Bad" (Agent.analyze_preferences msg ctx.preferences) = true) ∧
    ((pyIn "tv series" (pyLower msg) || pyIn "series" (pyLower msg)) = true →
      ctx.preferences.find? (fun p => pyIn "tv_series" (dictGetD p "key" "") ||
        pyIn "tv series" (pyLower (dictGetD p "value" ""))) = some p0 →
      pyIn "Breaking Bad" (ProperMain.preference_analysis_tool ctx msg) = true) := by
  refine ⟨?_, ?_, ?_, ?_⟩
  · intro hcond hfind
    refine ⟨"Your favorite TV series is: **Breaking Bad**", ?_, by decide⟩
    simp only [SimpleAI.analyze_preferences]
    rw [if_pos hcond, hfind]
    simp only [hval]
    rfl
  · intro hcond hfind
    refine ⟨{ response := "Your favorite TV series is: **Breaking Bad**", confidence := 9/10,
              task_type := "preference_query", memory_updated := true,
              tools_used := ["preference_analysis", "langchain_agent"] }, ?_, by decide⟩
    simp only [StartService.chat]
    rw [if_pos hcond, hfind]
    simp only [hval]
    rfl
  · intro hcond hfind
    have hne : ctx.preferences.isEmpty = false := by
      cases hp : ctx.preferences with
      | nil => rw [hp] at hfind; simp [List.find?] at hfind
      | cons a l => simp [hp]
    simp only [Agent.analyze_preferences]
    rw [if_neg (by simp [hne]), if_pos hcond, hfind]
    simp only [hval]
    rfl
  · intro hcond hfind
    have hne : ctx.preferences.isEmpty = false := by
      cases hp : ctx.preferences with
      | nil => rw [hp] at hfind; simp [List.find?] at hfind
      | cons a l => simp [hp]
    simp only [ProperMain.preference_analysis_tool]
    rw [if_neg (by simp [hne]), if_pos hcond, hfind]
    simp only [hval]
    rfl

/-- C4 witness: with the Breaking-Bad record first, all four variants answer
with "Breaking Bad" for the query "what is your favorite tv series". -/
theorem tv_series_preference_lookup_witness :
    (∃ r, SimpleAI.analyze_preferences "what is your favorite tv series"
        ({ preferences := [[("key", "tv_series"), ("value", "tv series: Breaking Bad")]] } : UserContext).preferences =
        some r ∧ pyIn "Breaking Bad" r = true) ∧
      (∃ r, StartService.chat "what is your favorite tv series"
          { preferences := [[("key", "tv_series"), ("value", "tv series: Breaking Bad")]] } =
          some r ∧ pyIn "Breaking Bad" r.response = true) ∧
      pyIn "Breaking Bad" (Agent.analyze_preferences "what is your favorite tv series"
        ({ preferences := [[("key", "tv_series"), ("value", "tv series: Breaking Bad")]] } : UserContext).preferences) = true ∧
      pyIn "Breaking Bad" (ProperMain.preference_analysis_tool
        { preferences := [[("key", "tv_series"), ("value", "tv series: Breaking Bad")]] }
        "what is your favorite tv series") = true := by
  have h := tv_series_preference_lookup "what is your favorite tv series"
    { preferences := [[("key", "tv_series"), ("value", "tv series: Breaking Bad")]] }
    [("key", "tv_series"), ("value", "tv series: Breaking Bad")] (by decide)
  exact ⟨h.1 (by decide) (by decide), h.2.1 (by decide) (by decide),
    h.2.2.1 (by decide) (by decide), h.2.2.2 (by decide) (by decide)⟩

/-- C6 counterexample: when the underlying `collection.add` raises, the
chromadb_utils `store_conversation` (cited by the claim) returns `None`, not
the boolean `False` the claim asserts: the write reports nothing. -/
theorem store_failure_counterexample :
    ChromaDBManager.store_conversation true 1 "message" "reply" "general_chat" []
        (Except.error "db down") = StoreResult.pyNone ∧
      StoreResult.pyNone ≠ StoreResult.pyBool false :=
  ⟨rfl, by decide⟩

/-- C6 amended: when the underlying vector-store call raises, `search_memory`
returns the empty list and main.py's `store_memory` returns `False`, while
chromadb_utils' `store_conversation` returns `None`; in all cases the
exception is swallowed inside the adapter. -/
theorem store_failure_silent (e content message response task_type : String) (u : Int)
    (tools : List String) :
    ChromaDBManager.search_memory true (Except.error e) = [] ∧
      MainService.store_memory true u content (Except.error e) = StoreResult.pyBool false ∧
      ChromaDBManager.store_conversation true u message response task_type tools
        (Except.error e) = StoreResult.pyNone :=
  ⟨rfl, rfl, rfl⟩

/-- C7 counterexample: with `TAVILY_API_KEY` absent the Tavily integration is
unavailable, yet the simple_main `/health` map still reports the fixed string
"configured" for "tavily" — neither `false` nor absent. -/
theorem health_missing_env_counterexample :
    WebSearchTool.check_status { tavily_api_key := none, google_credentials_path := none } = false ∧
      statusLookup "tavily" SimpleMain.health_services = some (JsonVal.str "configured") ∧
      JsonVal.str "configured" ≠ JsonVal.bool false :=
  ⟨rfl, rfl, by decide⟩

/-- C7 amended: the ai_assistant main service's `/health` tools map reports
`false` for every integration whose environment variable is absent; the
simple_main variant's `/health` map is a fixed string map that reflects no
environment state. -/
theorem health_reports_missing_env (env : Env) (calendarInitOk emailInitOk : Bool) :
    (env.tavily_api_key = none →
      statusLookup "web_search" (AiAssistantMain.health_tools env calendarInitOk emailInitOk) =
        some (JsonVal.bool false)) ∧
    (env.google_credentials_path = none →
      statusLookup "calendar" (AiAssistantMain.health_tools env calendarInitOk emailInitOk) =
        some (JsonVal.bool false) ∧
      statusLookup "email" (AiAssistantMain.health_tools env calendarInitOk emailInitOk) =
        some (JsonVal.bool false)) := by
  obtain ⟨t, g⟩ := env
  constructor
  · intro h
    simp only at h
    subst h
    rfl
  · intro h
    simp only at h
    subst h
    exact ⟨rfl, rfl⟩

/-- C7 witness: with both variables absent, all three configurable tools are
reported `false` by the ai_assistant health map. -/
theorem health_reports_missing_env_witness :
    statusLookup "web_search" (AiAssistantMain.health_tools ⟨none, none⟩ true true) =
        some (JsonVal.bool false) ∧
      statusLookup "calendar" (AiAssistantMain.health_tools ⟨none, none⟩ true true) =
        some (JsonVal.bool false) ∧
      statusLookup "email" (AiAssistantMain.health_tools ⟨none, none⟩ true true) =
        some (JsonVal.bool false) := by
  have h := health_reports_missing_env ⟨none, none⟩ true true
  exact ⟨h.1 rfl, (h.2 rfl).1, (h.2 rfl).2⟩

/-! Lemmas on the decimal printing of numbers, to settle uniqueness of the
generated memory-record identifiers. -/

theorem digitChar_ne_special (d : Nat) (hd : d < 10) :
    Nat.digitChar d ≠ '_' ∧ Nat.digitChar d ≠ '-' := by
  interval_cases d <;> exact ⟨by decide, by decide⟩

theorem toDigitsCore_ne_special :
    ∀ (fuel n : Nat) (ds : List Char), (∀ c ∈ ds, c ≠ '_' ∧ c ≠ '-') →
      ∀ c ∈ Nat.toDigitsCore 10 fuel n ds, c ≠ '_' ∧ c ≠ '-' := by
  intro fuel
  induction fuel with
  | zero =>
    intro n ds h
    simpa [Nat.toDigitsCore] using h
  | succ f ih =>
    intro n ds h c hc
    simp only [Nat.toDigitsCore] at hc
    by_cases h0 : n / 10 = 0
    · rw [if_pos h0] at hc
      rcases List.mem_cons.mp hc with rfl | hmem
      · exact digitChar_ne_special _ (by omega)
      · exact h c hmem
    · rw [if_neg h0] at hc
      refine ih (n / 10) _ ?_ c hc
      intro x hx
      rcases List.mem_cons.mp hx with rfl | hmem
      · exact digitChar_ne_special _ (by omega)
      · exact h x hmem

theorem natRepr_ne_special (n : Nat) : ∀ c ∈ (Nat.repr n).data, c ≠ '_' ∧ c ≠ '-' := by
  intro c hc
  have h : (Nat.repr n).data = Nat.toDigitsCore 10 (n + 1) n [] := rfl
  rw [h] at hc
  exact toDigitsCore_ne_special (n + 1) n [] (by simp) c hc

theorem digitVal_digitChar (d : Nat) (h : d < 10) : digitVal (Nat.digitChar d) = d := by
  interval_cases d <;> rfl

theorem decodeDigits_toDigitsCore :
    ∀ (fuel n : Nat) (ds : List Char), n ≤ fuel →
      decodeDigits (Nat.toDigitsCore 10 (fuel + 1) n ds) =
        n * 10 ^ ds.length + decodeDigits ds := by
  intro fuel
  induction fuel with
  | zero =>
    intro n ds hn
    have h0 : n = 0 := Nat.le_zero.mp hn
    subst h0
    show decodeDigits (Nat.digitChar (0 % 10) :: ds) = 0 * 10 ^ ds.length + decodeDigits ds
    simp only [decodeDigits]
    rw [digitVal_digitChar (0 % 10) (by omega)]
  | succ f ih =>
    intro n ds hn
    show decodeDigits
        (if n / 10 = 0 then Nat.digitChar (n % 10) :: ds
          else Nat.toDigitsCore 10 (f + 1) (n / 10) (Nat.digitChar (n % 10) :: ds)) =
      n * 10 ^ ds.length + decodeDigits ds
    by_cases h0 : n / 10 = 0
    · rw [if_pos h0]
      have hlt : n < 10 := by omega
      simp only [decodeDigits]
      rw [digitVal_digitChar (n % 10) (by omega)]
      rw [Nat.mod_eq_of_lt hlt]
    · rw [if_neg h0]
      have hle : n / 10 ≤ f := by omega
      rw [ih (n / 10) _ hle]
      simp only [decodeDigits, List.length_cons]
      rw [digitVal_digitChar (n % 10) (by omega), pow_succ]
      conv_rhs => rw [← Nat.div_add_mod n 10]
      ring

theorem decodeDigits_repr (n : Nat) : decodeDigits (Nat.repr n).data = n := by
  have h : (Nat.repr n).data = Nat.toDigitsCore 10 (n + 1) n [] := rfl
  rw [h, decodeDigits_toDigitsCore n n [] (le_refl n)]
  simp [decodeDigits]

theorem natRepr_inj {m n : Nat} (h : Nat.repr m = Nat.repr n) : m = n := by
  have hd := congrArg (fun s => decodeDigits s.data) h
  simpa [decodeDigits_repr] using hd

theorem negSucc_repr_data (m : Nat) :
    (Int.repr (Int.negSucc m)).data = '-' :: (Nat.repr (m + 1)).data := by
  show ("-" ++ Nat.repr (m + 1)).data = _
  rw [String.data_append]
  rfl

theorem intToString_ne_underscore (u : Int) : ∀ c ∈ (toString u).data, c ≠ '_' := by
  show ∀ c ∈ (Int.repr u).data, c ≠ '_'
  cases u with
  | ofNat m => exact fun c hc => (natRepr_ne_special m c hc).1
  | negSucc m =>
    intro c hc
    rw [negSucc_repr_data] at hc
    rcases List.mem_cons.mp hc with rfl | hmem
    · decide
    · exact (natRepr_ne_special (m + 1) c hmem).1

theorem intToString_inj {u v : Int} (h : toString u = toString v) : u = v := by
  have h' : Int.repr u = Int.repr v := h
  cases u with
  | ofNat m =>
    cases v with
    | ofNat n => exact congrArg Int.ofNat (natRepr_inj h')
    | negSucc n =>
      exfalso
      have hd := congrArg String.data h'
      rw [negSucc_repr_data] at hd
      have hmem : '-' ∈ (Nat.repr m).data := by
        show '-' ∈ (Int.repr (Int.ofNat m)).data
        rw [hd]
        exact List.mem_cons_self _ _
      exact (natRepr_ne_special m '-' hmem).2 rfl
  | negSucc m =>
    cases v with
    | ofNat n =>
      exfalso
      have hd := congrArg String.data h'
      rw [negSucc_repr_data] at hd
      have hmem : '-' ∈ (Nat.repr n).data := by
        show '-' ∈ (Int.repr (Int.ofNat n)).data
        rw [← hd]
        exact List.mem_cons_self _ _
      exact (natRepr_ne_special n '-' hmem).2 rfl
    | negSucc n =>
      have hd := congrArg String.data h'
      rw [negSucc_repr_data, negSucc_repr_data] at hd
      injection hd with h1 htail
      have hmn : m + 1 = n + 1 := natRepr_inj (String.ext htail)
      have hmn2 : m = n := by omega
      exact congrArg Int.negSucc hmn2

/-- Uniqueness of splitting at a separator character that occurs in neither
left part. -/
theorem append_sep_inj {sep : Char} :
    ∀ (a b t s : List Char), (∀ c ∈ a, c ≠ sep) → (∀ c ∈ b, c ≠ sep) →
      a ++ sep :: t = b ++ sep :: s → a = b ∧ t = s := by
  intro a
  induction a with
  | nil =>
    intro b t s _ hb h
    cases b with
    | nil => simpa using h
    | cons d bs =>
      exfalso
      simp only [List.nil_append, List.cons_append, List.cons.injEq] at h
      exact hb d (List.mem_cons_self _ _) h.1.symm
  | cons x as ih =>
    intro b t s ha hb h
    cases b with
    | nil =>
      exfalso
      simp only [List.nil_append, List.cons_append, List.cons.injEq] at h
      exact ha x (List.mem_cons_self _ _) h.1
    | cons d bs =>
      simp only [List.cons_append, List.cons.injEq] at h
      obtain ⟨rfl, h2⟩ := h
      obtain ⟨hab, hts⟩ := ih bs t s (fun c hc => ha c (List.mem_cons_of_mem _ hc))
        (fun c hc => hb c (List.mem_cons_of_mem _ hc)) h2
      exact ⟨by rw [hab], hts⟩

/-- A record id of the shape `tag ++ str(user_id) ++ "_" ++ timestamp`
determines — and is determined by — the (user id, timestamp) pair, provided
the timestamp string contains no underscore (true of the decimal float
strings the code interpolates). -/
theorem tagged_id_inj (tag : String) (u v : Int) (t s : String)
    (ht : ∀ c ∈ t.data, c ≠ '_') (hs : ∀ c ∈ s.data, c ≠ '_') :
    (tag ++ toString u ++ "_" ++ t = tag ++ toString v ++ "_" ++ s) ↔ (u = v ∧ t = s) := by
  constructor
  · intro h
    have hd := congrArg String.data h
    simp only [String.data_append] at hd
    have h1 : tag.data ++ ((toString u).data ++ ('_' :: t.data)) =
        tag.data ++ ((toString v).data ++ ('_' :: s.data)) := by
      simpa [List.append_assoc] using hd
    have h2 := List.append_cancel_left h1
    obtain ⟨hu, hts⟩ := append_sep_inj _ _ _ _ (intToString_ne_underscore u)
      (intToString_ne_underscore v) h2
    exact ⟨intToString_inj (String.ext hu), String.ext hts⟩
  · rintro ⟨rfl, rfl⟩
    rfl

/-- C8: for each store function, the generated record identifiers coincide
exactly when the (user id, timestamp) pairs coincide — the id carries nothing
else, so two writes for the same user within the same timestamp resolution
collide.  The hypotheses record that timestamp strings (decimal floats)
contain no underscore. -/
theorem doc_id_pairs (u v : Int) (t s : String)
    (ht : ∀ c ∈ t.data, c ≠ '_') (hs : ∀ c ∈ s.data, c ≠ '_') :
    (MainService.memory_doc_id u t = MainService.memory_doc_id v s ↔ u = v ∧ t = s) ∧
      (ChromaDBManager.conversation_doc_id u t = ChromaDBManager.conversation_doc_id v s ↔
        u = v ∧ t = s) :=
  ⟨tagged_id_inj "memory_" u v t s ht hs, tagged_id_inj "user_" u v t s ht hs⟩

/-- C8 witness: distinct users at the same timestamp get distinct ids, and the
same (user, timestamp) pair reproduces the same id. -/
theorem doc_id_pairs_witness :
    MainService.memory_doc_id 1 "1700000000.123" ≠ MainService.memory_doc_id 2 "1700000000.123" ∧
      ChromaDBManager.conversation_doc_id 1 "1700000000.123" =
        ChromaDBManager.conversation_doc_id 1 "1700000000.123" := by
  have h := doc_id_pairs 1 2 "1700000000.123" "1700000000.123" (by decide) (by decide)
  exact ⟨fun heq => absurd (h.1.mp heq).1 (by decide), rfl⟩

end Loom
